import Mathlib

/-
Verification of the chatpdf backend (src/backend/main.py) against its
natural-language specification.

The embedding models the process-wide state of the service:
  * `sessions` — the module-level `sessions: Dict[str, Dict[str, Any]]`,
    modelled as a finite map `String → Option SessionEntry`;
  * `files` — the set of paths currently present in the upload directory;
  * `registry` — `WebSocketManager.active_connections`, modelled as an
    association list from session identifier to an opaque connection id,
    mirroring Python dict assignment (replace in place) and `del`.
External library calls (PDF loading, text splitting, FAISS index
construction, chain construction, summarization, model invocation) are
opaque oracles of type `Except String _`: `.error m` models the call
raising an exception whose `str` is `m`.
-/

namespace ChatPdf

/-- One turn of the conversation: `{"role": ..., "content": ...}`. -/
structure Turn where
  role : String
  content : String
deriving Repr, DecidableEq

/-- One value of the `sessions` dict (`main.py` lines 77–83 and 100–101).
`document_summary = none` models the `"document_summary"` key being absent
from the per-session dict (as it is between registration and the summary
step); `some s` models the key being present with value `s`. -/
structure SessionEntry where
  doc_path : String
  vectorstore : Nat
  conversation_chain : Nat
  chat_history : List Turn
  document_summary : Option String
  summary_generated : Bool
deriving Repr, DecidableEq

/-- The process-wide `sessions` mapping. -/
def Sessions : Type := String → Option SessionEntry

/-- Registry of live connections: `WebSocketManager.active_connections`. -/
def Registry : Type := List (String × Nat)

/-- Whole-process state touched by the handlers. -/
structure ServerState where
  sessions : Sessions
  files : List String
  registry : Registry

/-- Update the `sessions` dict at one key (Python `sessions[sid] = e`). -/
def setSession (s : Sessions) (sid : String) (e : SessionEntry) : Sessions :=
  fun x => if x = sid then some e else s x

/-- Result of the `/upload-pdf/{session_id}` route: HTTP 400, HTTP 500, or
the HTTP 200 `JSONResponse` with its `message` and `session_id` fields. -/
inductive UploadResult where
  | invalidInput (detail : String)
  | internalError (detail : String)
  | success (message : String) (session_id : String)
deriving Repr, DecidableEq

/-- Oracles for the external calls made by `upload_pdf`, in program order.
Documents and chunks are opaque strings; index and chain handles are
opaque numbers. `.error m` models the call raising with message `m`. -/
structure UploadOracle where
  copyFile : Except String Unit
  loadDocs : Except String (List String)
  splitDocs : List String → Except String (List String)
  fromDocuments : List String → Except String Nat
  fromLlm : Nat → Except String Nat
  summarize : List String → Except String String

/-- `file.filename.endswith(".pdf")` (`main.py` line 52): the filename's
character sequence ends with the four characters `.pdf`. -/
def endsWithPdf (filename : String) : Bool :=
  List.isSuffixOf ".pdf".data filename.data

/-- The on-disk location `os.path.join(UPLOAD_DIR, f"{session_id}_{uuid4()}.pdf")`;
`tok` stands for the random uuid token. -/
def uploadPath (sid tok : String) : String :=
  "uploads/" ++ sid ++ "_" ++ tok ++ ".pdf"

/-- The `except` handler of `upload_pdf` (`main.py` lines 105–108): remove the
uploaded file if it exists, then surface HTTP 500 with the raw message. -/
def uploadFail (st : ServerState) (file_location m : String) :
    ServerState × UploadResult :=
  ({ st with files := st.files.filter (fun p => p ≠ file_location) },
   UploadResult.internalError ("Error processing PDF: " ++ m))

/-- Shallow embedding of `upload_pdf` (`main.py` lines 50–108).
The extension check precedes any I/O; the `try` body writes the file, loads
and splits the document, builds the index and conversation chain, registers
the session (with empty chat history and no summary yet), generates the
summary, and only then stores `document_summary` / `summary_generated`. -/
def upload_pdf (st : ServerState) (session_id filename tok : String)
    (o : UploadOracle) : ServerState × UploadResult :=
  if endsWithPdf filename then
    let file_location := uploadPath session_id tok
    let st1 : ServerState := { st with files := file_location :: st.files }
    match o.copyFile with
    | .error m => uploadFail st1 file_location m
    | .ok _ =>
      match o.loadDocs with
      | .error m => uploadFail st1 file_location m
      | .ok documents =>
        match o.splitDocs documents with
        | .error m => uploadFail st1 file_location m
        | .ok texts =>
          match o.fromDocuments texts with
          | .error m => uploadFail st1 file_location m
          | .ok vectorstore =>
            match o.fromLlm vectorstore with
            | .error m => uploadFail st1 file_location m
            | .ok conversation_chain =>
              let st2 : ServerState := { st1 with
                sessions := setSession st1.sessions session_id
                  { doc_path := file_location
                    vectorstore := vectorstore
                    conversation_chain := conversation_chain
                    chat_history := []
                    document_summary := none
                    summary_generated := false } }
              match o.summarize documents with
              | .error m => uploadFail st2 file_location m
              | .ok document_summary =>
                let st3 : ServerState := { st2 with
                  sessions := setSession st2.sessions session_id
                    { doc_path := file_location
                      vectorstore := vectorstore
                      conversation_chain := conversation_chain
                      chat_history := []
                      document_summary := some document_summary
                      summary_generated := true } }
                (st3, UploadResult.success
                  "PDF uploaded and processed successfully!" session_id)
  else
    (st, UploadResult.invalidInput
      "Invalid file type. Only PDF files are allowed.")

/-- First-match lookup in the connection registry (Python `dict` read /
`in` test on `active_connections`). -/
def lookupConn : Registry → String → Option Nat
  | [], _ => none
  | p :: rest, sid => if p.1 = sid then some p.2 else lookupConn rest sid

/-- Python dict assignment `self.active_connections[session_id] = websocket`:
replace the entry in place if the key is present, otherwise append. -/
def registryInsert : Registry → String → Nat → Registry
  | [], sid, ws => [(sid, ws)]
  | p :: rest, sid, ws =>
    if p.1 = sid then (sid, ws) :: rest else p :: registryInsert rest sid ws

/-- `WebSocketManager.disconnect` (`main.py` lines 123–126): delete the key
if present, no-op otherwise. -/
def registryErase (reg : Registry) (sid : String) : Registry :=
  if (lookupConn reg sid).isSome then reg.filter (fun p => p.1 ≠ sid) else reg

/-- `WebSocketManager.send_personal_message` (`main.py` lines 128–130):
deliver to the registered connection if one exists, silently drop otherwise.
Returns the list of (connection id, text) frame deliveries performed. -/
def send_personal_message (reg : Registry) (message : String) (sid : String) :
    List (Nat × String) :=
  match lookupConn reg sid with
  | some ws => [(ws, message)]
  | none => []

/-- The greeting line sent on connect
(`'Hello! I\'ve processed your PDF. Here is a summary:'`). -/
def greeting : String :=
  "Hello! I" ++ String.mk [Char.ofNat 39] ++
    "ve processed your PDF. Here is a summary:"

/-- `WebSocketManager.connect` (`main.py` lines 114–121): accept the socket,
register it (replacing any prior registration for this identifier), and if
`session_id in sessions and "document_summary" in sessions[session_id]`,
send the greeting and then the stored summary. Returns the new state and
the frames delivered. -/
def connect (st : ServerState) (ws : Nat) (sid : String) :
    ServerState × List (Nat × String) :=
  let reg2 := registryInsert st.registry sid ws
  let sent :=
    match st.sessions sid with
    | some entry =>
      match entry.document_summary with
      | some summ =>
        send_personal_message reg2 greeting sid ++
          send_personal_message reg2 summ sid
      | none => []
    | none => []
  ({ st with registry := reg2 }, sent)

/-- `WebSocketManager.disconnect` lifted to the whole state. -/
def disconnect (st : ServerState) (sid : String) : ServerState :=
  { st with registry := registryErase st.registry sid }

/-- Message sent when no session exists for the identifier
(`main.py` lines 147–152). -/
def noDocMsg : String :=
  "Error: No document uploaded for this session. Please upload a PDF first."

/-- The synthetic answer built in the `except` branch of the question
handler (`main.py` line 165). -/
def aiErrorMsg (m : String) : String :=
  "Error getting AI response: " ++ m ++ ". Please try again."

/-- One iteration of the `while True` read loop of `websocket_endpoint`
(`main.py` lines 143–169), processing one inbound text frame `data`.
`chain` is the oracle for `conversation_chain.ainvoke({"question": ...})`
followed by `response["answer"]`; `.error m` models the call raising with
message `m`. Returns the new state, the frames delivered, and whether the
loop continues to the next `receive_text` (the body has no exit path, so
this is `true` on every branch). -/
def processMessage (st : ServerState) (sid data : String)
    (chain : String → Except String String) :
    ServerState × List (Nat × String) × Bool :=
  match st.sessions sid with
  | none => (st, send_personal_message st.registry noDocMsg sid, true)
  | some entry =>
    let hist1 := entry.chat_history ++ [{ role := "user", content := data }]
    let ai_answer :=
      match chain data with
      | .ok answer => answer
      | .error m => aiErrorMsg m
    let hist2 := hist1 ++ [{ role := "ai", content := ai_answer }]
    let st2 : ServerState := { st with
      sessions := setSession st.sessions sid { entry with chat_history := hist2 } }
    (st2, send_personal_message st2.registry ai_answer sid, true)

/-- How the read loop of `websocket_endpoint` terminated. -/
inductive LoopExit where
  | peerDisconnect
  | unexpected (msg : String)
deriving Repr, DecidableEq

/-- The exception handlers at the bottom of `websocket_endpoint`
(`main.py` lines 171–175): on `WebSocketDisconnect`, deregister the
connection; on any other exception, attempt to send one diagnostic frame
(the registry is not touched by this branch). -/
def websocketCleanup (st : ServerState) (sid : String) :
    LoopExit → ServerState × List (Nat × String)
  | .peerDisconnect => (disconnect st sid, [])
  | .unexpected m =>
    (st, send_personal_message st.registry ("An unexpected error occurred: " ++ m) sid)

/-- Operations that mutate `active_connections` anywhere in the program. -/
inductive RegOp where
  | connect (sid : String) (ws : Nat)
  | disconnect (sid : String)
deriving Repr, DecidableEq

/-- Effect of one registry operation. -/
def applyRegOp (reg : Registry) : RegOp → Registry
  | .connect sid ws => registryInsert reg sid ws
  | .disconnect sid => registryErase reg sid

/-- Effect of a sequence of connect/disconnect operations, oldest first. -/
def applyRegOps (reg : Registry) (ops : List RegOp) : Registry :=
  ops.foldl applyRegOp reg

/-- Number of registry entries carrying the key `sid`. -/
def countKey : Registry → String → Nat
  | [], _ => 0
  | p :: rest, sid => (if p.1 = sid then 1 else 0) + countKey rest sid

/-- The invariant C8 asserts of `active_connections`: each session
identifier carries at most one registry entry. -/
def RegistryInv (reg : Registry) : Prop :=
  ∀ sid, countKey reg sid ≤ 1

/-- The automatic frames `connect` must emit, written from the spec's words:
two messages (greeting then summary, unchanged, to the new connection) when
the session has a stored summary, zero otherwise. Compared against the
code-derived `connect` in the C6 theorem. -/
def connectAutoMessagesSpec (st : ServerState) (ws : Nat) (sid : String) :
    List (Nat × String) :=
  match st.sessions sid with
  | some entry =>
    match entry.document_summary with
    | some summ => [(ws, greeting), (ws, summ)]
    | none => []
  | none => []

/-- Fixture: the state at process start — no sessions, empty upload
directory, no connections. -/
def stEmpty : ServerState :=
  { sessions := fun _ => none, files := [], registry := [] }

/-- Fixture: an oracle on which every external call succeeds. -/
def oGood : UploadOracle :=
  { copyFile := Except.ok ()
    loadDocs := Except.ok ["page one"]
    splitDocs := fun _ => Except.ok ["chunk"]
    fromDocuments := fun _ => Except.ok 5
    fromLlm := fun _ => Except.ok 9
    summarize := fun _ => Except.ok "A summary." }

/-- Fixture: an oracle on which only summary generation raises. -/
def oFailSummary : UploadOracle :=
  { oGood with summarize := fun _ => Except.error "boom" }

/-- Fixture: an oracle on which the summarizer returns the empty string. -/
def oEmptySummary : UploadOracle :=
  { oGood with summarize := fun _ => Except.ok "" }

/-- Fixture: a fully populated session entry with a stored summary. -/
def entryS : SessionEntry :=
  { doc_path := "uploads/s_tok.pdf", vectorstore := 5, conversation_chain := 9,
    chat_history := [], document_summary := some "Sum",
    summary_generated := true }

/-- Fixture: a state with session `"s"` registered and connected as
connection `7`. -/
def stS : ServerState :=
  { sessions := fun x => if x = "s" then some entryS else none,
    files := ["uploads/s_tok.pdf"], registry := [("s", 7)] }

/-- Fixture: a state with a live connection `3` for identifier `"u"` that
has no Session Store entry. -/
def stU : ServerState :=
  { sessions := fun _ => none, files := [], registry := [("u", 3)] }

/-- Fixture: a conversation-handle oracle that always raises `"bad"`. -/
def chainBad : String → Except String String :=
  fun _ => Except.error "bad"

theorem setSession_self (s : Sessions) (sid : String) (e : SessionEntry) :
    setSession s sid e sid = some e := by
  simp [setSession]

theorem setSession_ne (s : Sessions) (sid x : String) (e : SessionEntry)
    (h : x ≠ sid) : setSession s sid e x = s x := by
  simp [setSession, h]

theorem not_mem_filter_ne (x : String) (l : List String) :
    x ∉ l.filter (fun p => p ≠ x) := by
  simp [List.mem_filter]

theorem lookupConn_registryInsert_self (reg : Registry) (sid : String) (ws : Nat) :
    lookupConn (registryInsert reg sid ws) sid = some ws := by
  induction reg with
  | nil => simp [registryInsert, lookupConn]
  | cons p rest ih =>
    by_cases h : p.1 = sid
    · simp [registryInsert, h, lookupConn]
    · simp [registryInsert, h, lookupConn, ih]

theorem lookupConn_filter_ne (reg : Registry) (sid : String) :
    lookupConn (reg.filter (fun p => p.1 ≠ sid)) sid = none := by
  induction reg with
  | nil => rfl
  | cons p rest ih =>
    by_cases h : p.1 = sid
    · simpa [List.filter_cons, h] using ih
    · simpa [List.filter_cons, h, lookupConn] using ih

theorem lookupConn_registryErase_self (reg : Registry) (sid : String) :
    lookupConn (registryErase reg sid) sid = none := by
  unfold registryErase
  by_cases h : (lookupConn reg sid).isSome
  · rw [if_pos h]
    exact lookupConn_filter_ne reg sid
  · rw [if_neg h]
    exact Option.not_isSome_iff_eq_none.mp h

theorem countKey_registryInsert_self (reg : Registry) (sid : String) (ws : Nat) :
    countKey (registryInsert reg sid ws) sid = max (countKey reg sid) 1 := by
  induction reg with
  | nil => simp [registryInsert, countKey]
  | cons p rest ih =>
    by_cases h : p.1 = sid
    · simp [registryInsert, h, countKey]
    · simp [registryInsert, h, countKey, ih]

theorem countKey_registryInsert_ne (reg : Registry) (sid x : String) (ws : Nat)
    (h : x ≠ sid) : countKey (registryInsert reg sid ws) x = countKey reg x := by
  induction reg with
  | nil => simp [registryInsert, countKey, Ne.symm h]
  | cons p rest ih =>
    by_cases hp : p.1 = sid
    · simp [registryInsert, hp, countKey, Ne.symm h]
    · simp [registryInsert, hp, countKey, ih]

theorem countKey_filter_le (reg : Registry) (q : String × Nat → Bool) (x : String) :
    countKey (reg.filter q) x ≤ countKey reg x := by
  induction reg with
  | nil => simp [countKey]
  | cons p rest ih =>
    by_cases hq : q p
    · simp [List.filter_cons, hq, countKey]
      omega
    · simp [List.filter_cons, hq, countKey]
      omega

theorem countKey_registryErase_le (reg : Registry) (sid x : String) :
    countKey (registryErase reg sid) x ≤ countKey reg x := by
  unfold registryErase
  by_cases h : (lookupConn reg sid).isSome
  · simp [h]
    exact countKey_filter_le reg _ x
  · simp [h]

theorem registryInv_applyRegOp (reg : Registry) (op : RegOp)
    (h : RegistryInv reg) : RegistryInv (applyRegOp reg op) := by
  cases op with
  | connect sid ws =>
    intro x
    by_cases hx : x = sid
    · subst hx
      rw [applyRegOp, countKey_registryInsert_self]
      have := h x
      omega
    · rw [applyRegOp, countKey_registryInsert_ne reg sid x ws hx]
      exact h x
  | disconnect sid =>
    intro x
    exact le_trans (countKey_registryErase_le reg sid x) (h x)

theorem registryInv_applyRegOps (ops : List RegOp) (reg : Registry)
    (h : RegistryInv reg) : RegistryInv (applyRegOps reg ops) := by
  induction ops generalizing reg with
  | nil => exact h
  | cons op rest ih =>
    exact ih (applyRegOp reg op) (registryInv_applyRegOp reg op h)

theorem registryInv_nil : RegistryInv [] := by
  intro sid
  simp [countKey]

/-- C4: an upload whose filename does not end in `.pdf` is rejected with the
`InvalidInput` (HTTP 400) response before any I/O: the returned state is the
input state unchanged — no file written to the upload directory, no session
entry created or modified. -/
theorem upload_rejects_non_pdf (st : ServerState) (sid filename tok : String)
    (o : UploadOracle) (h : endsWithPdf filename = false) :
    upload_pdf st sid filename tok o =
      (st, UploadResult.invalidInput
        "Invalid file type. Only PDF files are allowed.") := by
  unfold upload_pdf
  rw [h]
  simp

/-- Witness for C4 at the concrete filename `doc.txt`. -/
theorem upload_rejects_non_pdf_witness :
    endsWithPdf "doc.txt" = false ∧
    upload_pdf stEmpty "abc" "doc.txt" "tok" oGood =
      (stEmpty, UploadResult.invalidInput
        "Invalid file type. Only PDF files are allowed.") :=
  ⟨by decide,
   upload_rejects_non_pdf stEmpty "abc" "doc.txt" "tok" oGood (by decide)⟩

/-- C6: `WebSocketManager.connect` sends exactly two automatic frames — the
fixed greeting and then the stored summary unchanged, both to the newly
registered connection — when the session has a stored summary, and zero
automatic frames otherwise (no entry, or entry without a stored summary). -/
theorem connect_auto_messages (st : ServerState) (ws : Nat) (sid : String) :
    (connect st ws sid).2 = connectAutoMessagesSpec st ws sid := by
  unfold connect connectAutoMessagesSpec
  cases hs : st.sessions sid with
  | none => rfl
  | some entry =>
    cases hd : entry.document_summary with
    | none => simp [hd]
    | some summ =>
      simp [hd, send_personal_message, lookupConn_registryInsert_self]

/-- C8: under every sequence of connect/disconnect operations starting from
the empty registry, each session identifier carries at most one registry
entry, and a connect for an already-registered identifier replaces the prior
entry with the new connection (the subsequent lookup yields the new one; no
operation in the model closes the displaced connection). -/
theorem registry_at_most_one (ops : List RegOp) (sid : String) (ws : Nat) :
    countKey (applyRegOps [] ops) sid ≤ 1 ∧
    lookupConn (registryInsert (applyRegOps [] ops) sid ws) sid = some ws :=
  ⟨registryInv_applyRegOps ops [] registryInv_nil sid,
   lookupConn_registryInsert_self (applyRegOps [] ops) sid ws⟩

/-- C9: `disconnect` removes the identifier from the registry if present and
is a no-op otherwise; after a disconnect, `send_personal_message` for that
identifier delivers nothing and surfaces no error (silent no-op). -/
theorem disconnect_removes_and_silent (st : ServerState) (sid text : String) :
    lookupConn (disconnect st sid).registry sid = none ∧
    (lookupConn st.registry sid = none → disconnect st sid = st) ∧
    send_personal_message (disconnect st sid).registry text sid = [] := by
  refine ⟨lookupConn_registryErase_self st.registry sid, ?_, ?_⟩
  · intro h
    show { st with registry := registryErase st.registry sid } = st
    unfold registryErase
    rw [h]
    rfl
  · show send_personal_message (registryErase st.registry sid) text sid = []
    unfold send_personal_message
    rw [lookupConn_registryErase_self]

/-- Witness for C9 at the concrete state `stS`. -/
theorem disconnect_removes_and_silent_witness :
    lookupConn (disconnect stS "s").registry "s" = none ∧
    (lookupConn stS.registry "s" = none → disconnect stS "s" = stS) ∧
    send_personal_message (disconnect stS "s").registry "t" "s" = [] :=
  disconnect_removes_and_silent stS "s" "t"

/-- C7: an inbound question for an identifier with no Session Store entry
makes the endpoint send the fixed "no document uploaded" string to the
registered connection, leaves the whole state (Session Store included)
unchanged, and the read loop continues (the connection is not closed). -/
theorem unregistered_question_fixed_string (st : ServerState)
    (sid data : String) (ws : Nat) (chain : String → Except String String)
    (hnone : st.sessions sid = none)
    (hconn : lookupConn st.registry sid = some ws) :
    processMessage st sid data chain = (st, [(ws, noDocMsg)], true) := by
  unfold processMessage
  rw [hnone]
  unfold send_personal_message
  rw [hconn]

/-- Witness for C7 at the concrete state `stU`. -/
theorem unregistered_question_fixed_string_witness :
    stU.sessions "u" = none ∧
    lookupConn stU.registry "u" = some 3 ∧
    processMessage stU "u" "hi" (fun _ => Except.ok "ans") =
      (stU, [(3, noDocMsg)], true) :=
  ⟨by decide, by decide,
   unregistered_question_fixed_string stU "u" "hi" 3
     (fun _ => Except.ok "ans") (by decide) (by decide)⟩

/-- C2: for a registered session, processing one inbound question appends
exactly two turns — `user`/Q then `ai`/answer, in that order — whether the
conversation-handle invocation succeeds or raises; on a raise with message
`m` the ai turn's content is exactly
`"Error getting AI response: " ++ m ++ ". Please try again."`; the same
answer string is sent to the registered connection, and the read loop
continues (the connection stays open). -/
theorem question_appends_two_turns (st : ServerState) (sid data : String)
    (entry : SessionEntry) (ws : Nat) (chain : String → Except String String)
    (hsess : st.sessions sid = some entry)
    (hconn : lookupConn st.registry sid = some ws) :
    ∃ ans,
      (processMessage st sid data chain).1.sessions sid =
        some { entry with chat_history := entry.chat_history ++
          [{ role := "user", content := data },
           { role := "ai", content := ans }] } ∧
      (processMessage st sid data chain).2.1 = [(ws, ans)] ∧
      (processMessage st sid data chain).2.2 = true ∧
      (∀ a, chain data = Except.ok a → ans = a) ∧
      (∀ m, chain data = Except.error m → ans = aiErrorMsg m) := by
  refine ⟨(match chain data with
           | Except.ok answer => answer
           | Except.error m => aiErrorMsg m), ?_, ?_, ?_, ?_, ?_⟩
  · unfold processMessage
    rw [hsess]
    simp [setSession_self]
  · unfold processMessage
    rw [hsess]
    simp [send_personal_message, hconn]
  · unfold processMessage
    rw [hsess]
  · intro a ha
    rw [ha]
  · intro m hm
    rw [hm]

/-- Witness for C2 at the concrete state `stS` with a failing model call. -/
theorem question_appends_two_turns_witness :
    stS.sessions "s" = some entryS ∧
    lookupConn stS.registry "s" = some 7 ∧
    ∃ ans,
      (processMessage stS "s" "hi" chainBad).1.sessions "s" =
        some { entryS with chat_history := entryS.chat_history ++
          [{ role := "user", content := "hi" },
           { role := "ai", content := ans }] } ∧
      (processMessage stS "s" "hi" chainBad).2.1 = [(7, ans)] ∧
      (processMessage stS "s" "hi" chainBad).2.2 = true ∧
      (∀ a, chainBad "hi" = Except.ok a → ans = a) ∧
      (∀ m, chainBad "hi" = Except.error m → ans = aiErrorMsg m) :=
  ⟨by decide, by decide,
   question_appends_two_turns stS "s" "hi" entryS 7 chainBad
     (by decide) (by decide)⟩

/-- C10: for a registered session, processing one inbound question mutates
only the `chat_history` field of that session's entry: every other field of
the entry, the entries of all other identifiers, the upload directory, and
the connection registry are unchanged, whether the model invocation
succeeds or fails. -/
theorem question_frame_effect (st : ServerState) (sid data : String)
    (entry : SessionEntry) (chain : String → Except String String)
    (hsess : st.sessions sid = some entry) :
    (∀ t, t ≠ sid →
      (processMessage st sid data chain).1.sessions t = st.sessions t) ∧
    (processMessage st sid data chain).1.registry = st.registry ∧
    (processMessage st sid data chain).1.files = st.files ∧
    ∃ hist, (processMessage st sid data chain).1.sessions sid =
      some { entry with chat_history := hist } := by
  unfold processMessage
  rw [hsess]
  refine ⟨?_, rfl, rfl, ?_⟩
  · intro t ht
    exact setSession_ne st.sessions sid t _ ht
  · exact ⟨_, setSession_self st.sessions sid _⟩

/-- Witness for C10 at the concrete state `stS` with a succeeding model
call. -/
theorem question_frame_effect_witness :
    stS.sessions "s" = some entryS ∧
    ((∀ t, t ≠ "s" →
      (processMessage stS "s" "hi" (fun _ => Except.ok "ans")).1.sessions t =
        stS.sessions t) ∧
    (processMessage stS "s" "hi" (fun _ => Except.ok "ans")).1.registry =
      stS.registry ∧
    (processMessage stS "s" "hi" (fun _ => Except.ok "ans")).1.files =
      stS.files ∧
    ∃ hist, (processMessage stS "s" "hi" (fun _ => Except.ok "ans")).1.sessions "s" =
      some { entryS with chat_history := hist }) :=
  ⟨by decide,
   question_frame_effect stS "s" "hi" entryS
     (fun _ => Except.ok "ans") (by decide)⟩

/-- Counterexample to C3 as stated: with connection `7` registered for
session `"s"`, an unexpected (non-disconnect) loop failure sends the
diagnostic frame but the registry entry for `"s"` is still present when the
handler ends — the connection is not deregistered. -/
theorem unexpected_error_not_deregistered_counterexample :
    (websocketCleanup stS "s" (LoopExit.unexpected "boom")).2 =
      [(7, "An unexpected error occurred: boom")] ∧
    lookupConn (websocketCleanup stS "s"
      (LoopExit.unexpected "boom")).1.registry "s" = some 7 := by
  constructor
  · decide
  · decide

/-- C3 amended: on an unexpected (non-disconnect) loop failure the endpoint
attempts to send one diagnostic frame on the connection, but the
connection's registry entry is NOT removed — it survives the handler;
deregistration happens only on the peer-disconnect exit. -/
theorem unexpected_error_keeps_registration (st : ServerState)
    (sid m : String) (ws : Nat)
    (hconn : lookupConn st.registry sid = some ws) :
    (websocketCleanup st sid (LoopExit.unexpected m)).2 =
      [(ws, "An unexpected error occurred: " ++ m)] ∧
    lookupConn (websocketCleanup st sid
      (LoopExit.unexpected m)).1.registry sid = some ws ∧
    lookupConn (websocketCleanup st sid
      LoopExit.peerDisconnect).1.registry sid = none := by
  refine ⟨?_, hconn, ?_⟩
  · unfold websocketCleanup send_personal_message
    rw [hconn]
  · exact lookupConn_registryErase_self st.registry sid

/-- Witness for the amended C3 at the concrete state `stS`. -/
theorem unexpected_error_keeps_registration_witness :
    lookupConn stS.registry "s" = some 7 ∧
    ((websocketCleanup stS "s" (LoopExit.unexpected "oops")).2 =
      [(7, "An unexpected error occurred: oops")] ∧
    lookupConn (websocketCleanup stS "s"
      (LoopExit.unexpected "oops")).1.registry "s" = some 7 ∧
    lookupConn (websocketCleanup stS "s"
      LoopExit.peerDisconnect).1.registry "s" = none) :=
  ⟨by decide,
   unexpected_error_keeps_registration stS "s" "oops" 7 (by decide)⟩

/-- C1 amended: whenever `upload_pdf` surfaces the `InternalError` response,
the uploaded file has been deleted from disk; the Session Store entry for
the identifier is unchanged unless the failing step is summary generation,
in which case the entry registered before the summary step (empty history,
no stored summary, `summary_generated = false`) remains. -/
theorem upload_failure_cleanup (st : ServerState) (sid filename tok d : String)
    (o : UploadOracle)
    (hfail : (upload_pdf st sid filename tok o).2 = UploadResult.internalError d) :
    uploadPath sid tok ∉ (upload_pdf st sid filename tok o).1.files ∧
    ((upload_pdf st sid filename tok o).1.sessions sid = st.sessions sid ∨
      ∃ docs m v c, o.loadDocs = Except.ok docs ∧
        o.summarize docs = Except.error m ∧
        (upload_pdf st sid filename tok o).1.sessions sid =
          some { doc_path := uploadPath sid tok, vectorstore := v,
                 conversation_chain := c, chat_history := [],
                 document_summary := none, summary_generated := false }) := by
  revert hfail
  unfold upload_pdf
  by_cases hpdf : endsWithPdf filename = true
  · rw [if_pos hpdf]
    split
    · intro _
      exact ⟨not_mem_filter_ne _ _, Or.inl rfl⟩
    · split
      · intro _
        exact ⟨not_mem_filter_ne _ _, Or.inl rfl⟩
      · split
        · intro _
          exact ⟨not_mem_filter_ne _ _, Or.inl rfl⟩
        · split
          · intro _
            exact ⟨not_mem_filter_ne _ _, Or.inl rfl⟩
          · split
            · intro _
              exact ⟨not_mem_filter_ne _ _, Or.inl rfl⟩
            · split
              · rename_i x5 u hcopy x4 docs hload x3 texts hsplit x2 v hvs x1 c hchain x0 m hsumm
                intro _
                refine ⟨not_mem_filter_ne _ _,
                  Or.inr ⟨docs, m, v, c, hload, hsumm, ?_⟩⟩
                exact setSession_self _ _ _
              · intro h
                simp at h
  · rw [if_neg hpdf]
    intro h
    simp at h

/-- C5 amended: a successful upload response carries the request identifier,
and afterwards the Session Store maps that identifier to an entry with an
empty turn sequence whose stored summary is exactly the string produced by
the summarization call (hence non-empty exactly when that output is). -/
theorem upload_success_registers (st : ServerState)
    (sid filename tok msg ssid : String) (o : UploadOracle)
    (hsucc : (upload_pdf st sid filename tok o).2 =
      UploadResult.success msg ssid) :
    ssid = sid ∧
    ∃ docs v c summ,
      o.loadDocs = Except.ok docs ∧
      o.summarize docs = Except.ok summ ∧
      (upload_pdf st sid filename tok o).1.sessions sid =
        some { doc_path := uploadPath sid tok, vectorstore := v,
               conversation_chain := c, chat_history := [],
               document_summary := some summ, summary_generated := true } := by
  revert hsucc
  unfold upload_pdf
  by_cases hpdf : endsWithPdf filename = true
  · rw [if_pos hpdf]
    split
    · intro h
      simp [uploadFail] at h
    · split
      · intro h
        simp [uploadFail] at h
      · split
        · intro h
          simp [uploadFail] at h
        · split
          · intro h
            simp [uploadFail] at h
          · split
            · intro h
              simp [uploadFail] at h
            · split
              · intro h
                simp [uploadFail] at h
              · rename_i x5 u hcopy x4 docs hload x3 texts hsplit x2 v hvs x1 c hchain x0 summ hsumm
                intro h
                simp only [Prod.snd] at h
                refine ⟨?_, docs, v, c, summ, hload, hsumm, ?_⟩
                · cases h
                  rfl
                · exact setSession_self _ _ _
  · rw [if_neg hpdf]
    intro h
    simp at h

/-- Counterexample to C1 as stated: when summary generation raises, the
handler returns `InternalError` and deletes the file, yet the Session Store
still holds the entry this request registered at the pre-summary step. -/
theorem upload_failure_leaves_session_counterexample :
    (upload_pdf stEmpty "abc" "doc.pdf" "tok" oFailSummary).2 =
      UploadResult.internalError "Error processing PDF: boom" ∧
    (upload_pdf stEmpty "abc" "doc.pdf" "tok" oFailSummary).1.sessions "abc" =
      some { doc_path := "uploads/abc_tok.pdf", vectorstore := 5,
             conversation_chain := 9, chat_history := [],
             document_summary := none, summary_generated := false } :=
  ⟨by decide, by decide⟩

/-- Witness for the amended C1 at a concrete summary-step failure. -/
theorem upload_failure_cleanup_witness :
    (upload_pdf stEmpty "abc" "doc.pdf" "tok" oFailSummary).2 =
      UploadResult.internalError "Error processing PDF: boom" ∧
    (uploadPath "abc" "tok" ∉
      (upload_pdf stEmpty "abc" "doc.pdf" "tok" oFailSummary).1.files ∧
     ((upload_pdf stEmpty "abc" "doc.pdf" "tok" oFailSummary).1.sessions "abc" =
        stEmpty.sessions "abc" ∨
      ∃ docs m v c, oFailSummary.loadDocs = Except.ok docs ∧
        oFailSummary.summarize docs = Except.error m ∧
        (upload_pdf stEmpty "abc" "doc.pdf" "tok" oFailSummary).1.sessions "abc" =
          some { doc_path := uploadPath "abc" "tok", vectorstore := v,
                 conversation_chain := c, chat_history := [],
                 document_summary := none, summary_generated := false })) :=
  ⟨by decide,
   upload_failure_cleanup stEmpty "abc" "doc.pdf" "tok"
     "Error processing PDF: boom" oFailSummary (by decide)⟩

/-- Counterexample to C5 as stated: when the summarization call returns the
empty string, the upload still completes successfully and the stored
summary is the empty string — not a non-empty one. -/
theorem upload_empty_summary_counterexample :
    (upload_pdf stEmpty "abc" "doc.pdf" "tok" oEmptySummary).2 =
      UploadResult.success "PDF uploaded and processed successfully!" "abc" ∧
    (upload_pdf stEmpty "abc" "doc.pdf" "tok" oEmptySummary).1.sessions "abc" =
      some { doc_path := "uploads/abc_tok.pdf", vectorstore := 5,
             conversation_chain := 9, chat_history := [],
             document_summary := some "", summary_generated := true } ∧
    String.length "" = 0 :=
  ⟨by decide, by decide, rfl⟩

/-- Witness for the amended C5 at a concrete successful upload. -/
theorem upload_success_registers_witness :
    (upload_pdf stEmpty "abc" "doc.pdf" "tok" oGood).2 =
      UploadResult.success "PDF uploaded and processed successfully!" "abc" ∧
    ("abc" = "abc" ∧
     ∃ docs v c summ,
       oGood.loadDocs = Except.ok docs ∧
       oGood.summarize docs = Except.ok summ ∧
       (upload_pdf stEmpty "abc" "doc.pdf" "tok" oGood).1.sessions "abc" =
         some { doc_path := uploadPath "abc" "tok", vectorstore := v,
                conversation_chain := c, chat_history := [],
                document_summary := some summ, summary_generated := true }) :=
  ⟨by decide,
   upload_success_registers stEmpty "abc" "doc.pdf" "tok"
     "PDF uploaded and processed successfully!" "abc" oGood (by decide)⟩

end ChatPdf
